import Mathlib

/-!
Verification of the Row Hasher component (`src/row_hasher.py`).

The development shallowly embeds the two responsibilities of the component:

* `hash_row` — the per-record digest function: join the cell values with the
  delimiter, encode as UTF-8, take the MD5 digest, render lowercase hex.
  `hashlib.md5` is embedded as an executable MD5 over byte lists (`md5Bytes`),
  following RFC 1321; bytes are `Nat` values reduced mod 2^32 word-wise.
* `row_hasher` — the stream pipeline: the filesystem is abstracted as a map
  from paths to an optional list of parsed records (`none` = the path cannot
  be opened); the run outcome records what was written to the destination,
  whether the destination was opened, the console message, and any exception
  that escapes the function.
-/

namespace RowHasher

/-- The 64 per-round constants of MD5 (`K[i] = floor(abs(sin(i+1)) * 2^32)`). -/
def md5K : List Nat :=
  [0xd76aa478, 0xe8c7b756, 0x242070db, 0xc1bdceee,
   0xf57c0faf, 0x4787c62a, 0xa8304613, 0xfd469501,
   0x698098d8, 0x8b44f7af, 0xffff5bb1, 0x895cd7be,
   0x6b901122, 0xfd987193, 0xa679438e, 0x49b40821,
   0xf61e2562, 0xc040b340, 0x265e5a51, 0xe9b6c7aa,
   0xd62f105d, 0x02441453, 0xd8a1e681, 0xe7d3fbc8,
   0x21e1cde6, 0xc33707d6, 0xf4d50d87, 0x455a14ed,
   0xa9e3e905, 0xfcefa3f8, 0x676f02d9, 0x8d2a4c8a,
   0xfffa3942, 0x8771f681, 0x6d9d6122, 0xfde5380c,
   0xa4beea44, 0x4bdecfa9, 0xf6bb4b60, 0xbebfbc70,
   0x289b7ec6, 0xeaa127fa, 0xd4ef3085, 0x04881d05,
   0xd9d4d039, 0xe6db99e5, 0x1fa27cf8, 0xc4ac5665,
   0xf4292244, 0x432aff97, 0xab9423a7, 0xfc93a039,
   0x655b59c3, 0x8f0ccc92, 0xffeff47d, 0x85845dd1,
   0x6fa87e4f, 0xfe2ce6e0, 0xa3014314, 0x4e0811a1,
   0xf7537e82, 0xbd3af235, 0x2ad7d2bb, 0xeb86d391]

/-- The 64 per-round left-rotation amounts of MD5. -/
def md5S : List Nat :=
  [7, 12, 17, 22, 7, 12, 17, 22, 7, 12, 17, 22, 7, 12, 17, 22,
   5, 9, 14, 20, 5, 9, 14, 20, 5, 9, 14, 20, 5, 9, 14, 20,
   4, 11, 16, 23, 4, 11, 16, 23, 4, 11, 16, 23, 4, 11, 16, 23,
   6, 10, 15, 21, 6, 10, 15, 21, 6, 10, 15, 21, 6, 10, 15, 21]

/-- 32-bit left rotation on a word already below 2^32. -/
def leftrot (x n : Nat) : Nat :=
  ((x <<< n) ||| (x >>> (32 - n))) % 4294967296

/-- The four running 32-bit words of the MD5 state. -/
structure MD5State where
  a : Nat
  b : Nat
  c : Nat
  d : Nat
deriving DecidableEq

/-- Pad a message per MD5: append `0x80`, zeros to 56 mod 64, then the
original bit length as 8 little-endian bytes. -/
def md5Pad (msg : List Nat) : List Nat :=
  let padLen := (119 - (msg.length % 64)) % 64
  msg ++ [0x80] ++ List.replicate padLen 0 ++
    (List.range 8).map (fun i => ((msg.length * 8) >>> (8 * i)) % 256)

/-- Decode a 64-byte chunk into its 16 little-endian 32-bit words. -/
def wordsOfChunk (chunk : List Nat) : List Nat :=
  (List.range 16).map (fun j =>
    chunk.getD (4 * j) 0 + chunk.getD (4 * j + 1) 0 * 256 +
    chunk.getD (4 * j + 2) 0 * 65536 + chunk.getD (4 * j + 3) 0 * 16777216)

/-- One of the 64 MD5 rounds, acting on the state with message words `m`. -/
def md5Round (m : List Nat) (st : MD5State) (i : Nat) : MD5State :=
  let fg : Nat × Nat :=
    if i < 16 then ((st.b &&& st.c) ||| ((st.b ^^^ 0xffffffff) &&& st.d), i)
    else if i < 32 then
      ((st.d &&& st.b) ||| ((st.d ^^^ 0xffffffff) &&& st.c), (5 * i + 1) % 16)
    else if i < 48 then (st.b ^^^ st.c ^^^ st.d, (3 * i + 5) % 16)
    else (st.c ^^^ (st.b ||| (st.d ^^^ 0xffffffff)), (7 * i) % 16)
  let tmp := (fg.1 + st.a + md5K.getD i 0 + m.getD fg.2 0) % 4294967296
  { a := st.d, b := (st.b + leftrot tmp (md5S.getD i 0)) % 4294967296,
    c := st.b, d := st.c }

/-- Process one 64-byte chunk: run the 64 rounds and add the result back
into the incoming state, word-wise mod 2^32. -/
def md5Chunk (st : MD5State) (chunk : List Nat) : MD5State :=
  let m := wordsOfChunk chunk
  let f := (List.range 64).foldl (md5Round m) st
  { a := (st.a + f.a) % 4294967296, b := (st.b + f.b) % 4294967296,
    c := (st.c + f.c) % 4294967296, d := (st.d + f.d) % 4294967296 }

/-- Split a padded message (length a multiple of 64) into 64-byte chunks. -/
def md5Chunks (bytes : List Nat) : List (List Nat) :=
  (List.range (bytes.length / 64)).map (fun i => ((bytes.drop (64 * i)).take 64))

/-- Serialize a 32-bit word as 4 little-endian bytes. -/
def wordBytesLE (w : Nat) : List Nat :=
  [w % 256, (w >>> 8) % 256, (w >>> 16) % 256, (w >>> 24) % 256]

/-- The MD5 digest of a byte list, as the 16 digest bytes
(`hashlib.md5(...).digest()`). -/
def md5Bytes (msg : List Nat) : List Nat :=
  let f := (md5Chunks (md5Pad msg)).foldl md5Chunk
    ⟨0x67452301, 0xefcdab89, 0x98badcfe, 0x10325476⟩
  wordBytesLE f.a ++ wordBytesLE f.b ++ wordBytesLE f.c ++ wordBytesLE f.d

/-- The sixteen lowercase hexadecimal digit characters. -/
def hexChars : List Char := "0123456789abcdef".data

/-- The lowercase hex digit for a nibble. -/
def hexDigitChar (n : Nat) : Char := hexChars.getD n '0'

/-- Two lowercase hex characters for one byte. -/
def byteToHex (b : Nat) : List Char := [hexDigitChar ((b / 16) % 16), hexDigitChar (b % 16)]

/-- Render a byte list as a lowercase hexadecimal string. -/
def bytesToHexString (bs : List Nat) : String := ⟨(bs.map byteToHex).flatten⟩

/-- `hashlib.md5(msg).hexdigest()`: the MD5 digest rendered as lowercase hex. -/
def md5HexDigest (msg : List Nat) : String := bytesToHexString (md5Bytes msg)

/-- UTF-8 encoding of one Unicode scalar value, as in `str.encode('utf-8')`. -/
def utf8EncodeChar (c : Char) : List Nat :=
  let n := c.toNat
  if n < 0x80 then [n]
  else if n < 0x800 then [0xC0 ||| (n >>> 6), 0x80 ||| (n &&& 0x3F)]
  else if n < 0x10000 then
    [0xE0 ||| (n >>> 12), 0x80 ||| ((n >>> 6) &&& 0x3F), 0x80 ||| (n &&& 0x3F)]
  else
    [0xF0 ||| (n >>> 18), 0x80 ||| ((n >>> 12) &&& 0x3F),
     0x80 ||| ((n >>> 6) &&& 0x3F), 0x80 ||| (n &&& 0x3F)]

/-- UTF-8 encoding of a string as a byte list (`s.encode('utf-8')`). -/
def utf8Encode (s : String) : List Nat := (s.data.map utf8EncodeChar).flatten

/-- `hash_row(values, delimiter)` from `src/row_hasher.py`:
`hashlib.md5(delimiter.join(values).encode('utf-8')).hexdigest()`. -/
def hash_row (values : List String) (delimiter : String) : String :=
  md5HexDigest (utf8Encode (String.intercalate delimiter values))

/-- A record: the ordered cell values of one row of the delimited source. -/
abbrev Record := List String

/-- The error taxonomy of the pipeline. `resourceNotFound` is Python's
`FileNotFoundError` raised by `open(input_file)` (the spec's
`ResourceNotFoundError`); `emptyInput` is the `StopIteration` raised by
`next(reader)` on a source with no records (the spec's `EmptyInputError`). -/
inductive PipelineError where
  | resourceNotFound (path : String)
  | emptyInput
deriving DecidableEq

/-- Observable outcome of one `row_hasher` run: whether the destination was
opened (created/truncated), the records written to it (as cell lists, in
order), the line printed to the console, the error caught and swallowed
inside the function (the `except FileNotFoundError` branch), and the
exception escaping the function uncaught, if any. -/
structure RunOutcome where
  outputCreated : Bool
  written : List Record
  message : Option String
  caught : Option PipelineError
  uncaught : Option PipelineError
deriving DecidableEq

/-- `row_hasher(input_file, output_file, delimiter, column_name)` from
`src/row_hasher.py`. The filesystem is abstracted as `fs`, mapping a path to
the list of records `csv.reader` yields for it, or `none` when the path
cannot be opened for reading. The `with` statement opens the input first, so
on a missing input the destination is never opened; `FileNotFoundError` is
caught and reported via `print`, and the function returns normally. On an
input with zero records, `next(reader)` raises an exception after both files
are open but before anything is written; it is not caught, so it escapes.
Otherwise the header plus the column name is written, then each data row
plus its digest. -/
def row_hasher (input_file output_file : String)
    (fs : String → Option (List Record))
    (delimiter : String := ",") (column_name : String := "row_id") : RunOutcome :=
  match fs input_file with
  | none =>
      { outputCreated := false, written := [],
        message := some ("File not found: " ++ input_file),
        caught := some (PipelineError.resourceNotFound input_file),
        uncaught := none }
  | some [] =>
      { outputCreated := true, written := [], message := none,
        caught := none, uncaught := some PipelineError.emptyInput }
  | some (header :: rows) =>
      { outputCreated := true,
        written := (header ++ [column_name]) ::
          rows.map (fun row => row ++ [hash_row row delimiter]),
        message := some ("Hashed file created at " ++ output_file),
        caught := none, uncaught := none }

/-! ### Helper lemmas -/

theorem hexDigitChar_mem (n : Nat) : hexDigitChar n ∈ hexChars := by
  unfold hexDigitChar
  by_cases h : n < hexChars.length
  · rw [List.getD_eq_getElem _ _ h]
    exact List.getElem_mem h
  · rw [List.getD_eq_default _ _ (Nat.le_of_not_lt h)]
    decide

theorem md5Bytes_length (msg : List Nat) : (md5Bytes msg).length = 16 := by
  simp [md5Bytes, wordBytesLE]

theorem flatten_byteToHex_length (bs : List Nat) :
    ((bs.map byteToHex).flatten).length = 2 * bs.length := by
  induction bs with
  | nil => simp
  | cons b bs ih => simp [byteToHex, ih, Nat.mul_add, Nat.mul_succ]

theorem md5HexDigest_length (msg : List Nat) : (md5HexDigest msg).length = 32 := by
  show ((md5Bytes msg).map byteToHex).flatten.length = 32
  rw [flatten_byteToHex_length, md5Bytes_length]

theorem md5HexDigest_mem_hexChars (msg : List Nat) :
    ∀ c ∈ (md5HexDigest msg).data, c ∈ hexChars := by
  intro c hc
  have hc' : c ∈ ((md5Bytes msg).map byteToHex).flatten := hc
  rw [List.mem_flatten] at hc'
  obtain ⟨l, hl, hcl⟩ := hc'
  rw [List.mem_map] at hl
  obtain ⟨b, _, rfl⟩ := hl
  simp only [byteToHex, List.mem_cons, List.not_mem_nil, or_false] at hcl
  rcases hcl with rfl | rfl <;> exact hexDigitChar_mem _

end RowHasher

/-! ### Claim theorems -/

namespace RowHasher

set_option maxRecDepth 10000

/-- C1: for every ordered cell-value sequence and delimiter, `hash_row`
returns the lowercase hexadecimal MD5 digest, exactly 32 characters long, of
the UTF-8 encoding of the cells joined in order with the delimiter; for the
empty sequence it is the digest of the empty byte string; it is a total pure
function of exactly these two inputs. -/
theorem hash_row_md5_utf8_hex (values : List String) (delimiter : String) :
    hash_row values delimiter
      = md5HexDigest (utf8Encode (String.intercalate delimiter values)) ∧
    (hash_row values delimiter).length = 32 ∧
    (∀ c ∈ (hash_row values delimiter).data, c ∈ hexChars) ∧
    hash_row [] delimiter = md5HexDigest [] :=
  ⟨rfl, md5HexDigest_length _, md5HexDigest_mem_hexChars _, rfl⟩

/-- Witness for C1 at the concrete record `["a","b"]` with delimiter `,`. -/
theorem hash_row_md5_utf8_hex_witness :
    (hash_row ["a", "b"] ",").length = 32 ∧ 'b' ∈ hexChars :=
  ⟨(hash_row_md5_utf8_hex ["a", "b"] ",").2.1,
   (hash_row_md5_utf8_hex ["a", "b"] ",").2.2.1 'b' (by decide)⟩

/-- C2: every output record (header and data) is the corresponding input
record with exactly one cell appended: its length is the input length plus
one and dropping its last cell recovers the input record. -/
theorem row_hasher_column_append (input_file output_file : String)
    (fs : String → Option (List Record)) (header : Record) (rows : List Record)
    (delimiter column_name : String)
    (hfs : fs input_file = some (header :: rows)) :
    List.Forall₂ (fun inp out => out.length = inp.length + 1 ∧ out.dropLast = inp)
      (header :: rows)
      (row_hasher input_file output_file fs delimiter column_name).written := by
  simp only [row_hasher, hfs]
  constructor
  · exact ⟨by simp, by simp⟩
  · rw [List.forall₂_map_right_iff, List.forall₂_same]
    intro r _
    exact ⟨by simp, by simp⟩

/-- Witness for C2 on a concrete two-record file. -/
theorem row_hasher_column_append_witness :
    List.Forall₂ (fun inp out => out.length = inp.length + 1 ∧ out.dropLast = inp)
      [["name", "age"], ["alice", "30"]]
      (row_hasher "in.csv" "out.csv"
        (fun _ => some [["name", "age"], ["alice", "30"]]) "," "row_id").written :=
  row_hasher_column_append "in.csv" "out.csv" _ ["name", "age"] [["alice", "30"]]
    "," "row_id" rfl

/-- C3 counterexample: on a missing input the source catches the error,
prints the message, and returns normally — no exception escapes the
function, so the process completes with a success exit status instead of
indicating failure. -/
theorem row_hasher_missing_input_counterexample :
    (row_hasher "data.csv" "out.csv" (fun _ => none) "," "row_id").uncaught = none ∧
    (row_hasher "data.csv" "out.csv" (fun _ => none) "," "row_id").message
      = some "File not found: data.csv" :=
  ⟨rfl, rfl⟩

/-- C3 amended: on a missing input the failure is detected as a
resource-not-found error and reported with the offending path, and nothing
is written; but the error is caught inside `row_hasher`, which returns
normally, so the run completes without any failure indication (exit 0). -/
theorem row_hasher_missing_input_reported (input_file output_file : String)
    (fs : String → Option (List Record)) (delimiter column_name : String)
    (hfs : fs input_file = none) :
    (row_hasher input_file output_file fs delimiter column_name).caught
      = some (PipelineError.resourceNotFound input_file) ∧
    (row_hasher input_file output_file fs delimiter column_name).message
      = some ("File not found: " ++ input_file) ∧
    (row_hasher input_file output_file fs delimiter column_name).uncaught = none ∧
    (row_hasher input_file output_file fs delimiter column_name).written = [] := by
  simp [row_hasher, hfs]

/-- Witness for C3 (amended) at a concrete missing path. -/
theorem row_hasher_missing_input_reported_witness :
    (row_hasher "data.csv" "out.csv" (fun _ => none) "," "row_id").caught
      = some (PipelineError.resourceNotFound "data.csv") ∧
    (row_hasher "data.csv" "out.csv" (fun _ => none) "," "row_id").message
      = some ("File not found: " ++ "data.csv") ∧
    (row_hasher "data.csv" "out.csv" (fun _ => none) "," "row_id").uncaught = none ∧
    (row_hasher "data.csv" "out.csv" (fun _ => none) "," "row_id").written = [] :=
  row_hasher_missing_input_reported "data.csv" "out.csv" (fun _ => none) "," "row_id" rfl

/-- C4: on an input that exists but has zero records, the run fails with the
empty-input error surfacing to the caller as an uncaught exception, prints
no success message, and writes no record to the destination. -/
theorem row_hasher_empty_input (input_file output_file : String)
    (fs : String → Option (List Record)) (delimiter column_name : String)
    (hfs : fs input_file = some []) :
    (row_hasher input_file output_file fs delimiter column_name).uncaught
      = some PipelineError.emptyInput ∧
    (row_hasher input_file output_file fs delimiter column_name).written = [] ∧
    (row_hasher input_file output_file fs delimiter column_name).message = none := by
  simp [row_hasher, hfs]

/-- Witness for C4 at a concrete empty source. -/
theorem row_hasher_empty_input_witness :
    (row_hasher "empty.csv" "out.csv" (fun _ => some []) "," "row_id").uncaught
      = some PipelineError.emptyInput ∧
    (row_hasher "empty.csv" "out.csv" (fun _ => some []) "," "row_id").written = [] ∧
    (row_hasher "empty.csv" "out.csv" (fun _ => some []) "," "row_id").message = none :=
  row_hasher_empty_input "empty.csv" "out.csv" (fun _ => some []) "," "row_id" rfl

/-- C5: on a missing input the failure occurs before the destination is
opened: the output resource is never created and no record is written. -/
theorem row_hasher_missing_input_no_write (input_file output_file : String)
    (fs : String → Option (List Record)) (delimiter column_name : String)
    (hfs : fs input_file = none) :
    (row_hasher input_file output_file fs delimiter column_name).outputCreated
      = false ∧
    (row_hasher input_file output_file fs delimiter column_name).written = [] := by
  simp [row_hasher, hfs]

/-- Witness for C5 at a concrete missing path. -/
theorem row_hasher_missing_input_no_write_witness :
    (row_hasher "gone.csv" "out.csv" (fun _ => none) "," "row_id").outputCreated
      = false ∧
    (row_hasher "gone.csv" "out.csv" (fun _ => none) "," "row_id").written = [] :=
  row_hasher_missing_input_no_write "gone.csv" "out.csv" (fun _ => none) "," "row_id" rfl

/-- C6: streaming equivalence — the records one run writes for an N-record
body equal, row for row, the single data record written by an independent
run on a one-record file with the same header, delimiter and column name:
output record i depends only on input record i and the configuration. -/
theorem row_hasher_streaming_equivalence (input_file output_file : String)
    (fs : String → Option (List Record)) (header : Record) (rows : List Record)
    (delimiter column_name : String)
    (hfs : fs input_file = some (header :: rows)) :
    (row_hasher input_file output_file fs delimiter column_name).written
      = (header ++ [column_name]) ::
        rows.map (fun r =>
          (row_hasher input_file output_file (fun _ => some [header, r])
            delimiter column_name).written.getD 1 []) := by
  simp [row_hasher, hfs]

/-- Witness for C6 on a concrete two-data-record file. -/
theorem row_hasher_streaming_equivalence_witness :
    (row_hasher "in.csv" "out.csv"
        (fun _ => some [["name", "age"], ["alice", "30"], ["bob", "25"]])
        "," "row_id").written
      = (["name", "age"] ++ ["row_id"]) ::
        [["alice", "30"], ["bob", "25"]].map (fun r =>
          (row_hasher "in.csv" "out.csv" (fun _ => some [["name", "age"], r])
            "," "row_id").written.getD 1 []) :=
  row_hasher_streaming_equivalence "in.csv" "out.csv" _ ["name", "age"]
    [["alice", "30"], ["bob", "25"]] "," "row_id" rfl

/-- C7: determinism — two runs with equal input paths, filesystem contents,
delimiters and column names produce equal outcomes, and `hash_row` on equal
cell sequences and delimiters returns the same 32-character digest. -/
theorem row_hasher_deterministic
    (in₁ in₂ out₁ out₂ : String) (fs₁ fs₂ : String → Option (List Record))
    (d₁ d₂ cn₁ cn₂ : String) (values₁ values₂ : List String)
    (h₁ : in₁ = in₂) (h₂ : out₁ = out₂) (h₃ : fs₁ = fs₂) (h₄ : d₁ = d₂)
    (h₅ : cn₁ = cn₂) (h₆ : values₁ = values₂) :
    row_hasher in₁ out₁ fs₁ d₁ cn₁ = row_hasher in₂ out₂ fs₂ d₂ cn₂ ∧
    hash_row values₁ d₁ = hash_row values₂ d₂ ∧
    (hash_row values₁ d₁).length = 32 := by
  subst h₁ h₂ h₃ h₄ h₅ h₆
  exact ⟨rfl, rfl, md5HexDigest_length _⟩

/-- Witness for C7: two identically configured concrete runs agree. -/
theorem row_hasher_deterministic_witness :
    row_hasher "in.csv" "out.csv" (fun _ => some [["name"], ["alice"]]) "," "row_id"
      = row_hasher "in.csv" "out.csv" (fun _ => some [["name"], ["alice"]]) "," "row_id" ∧
    hash_row ["alice", "30"] "," = hash_row ["alice", "30"] "," ∧
    (hash_row ["alice", "30"] ",").length = 32 :=
  row_hasher_deterministic "in.csv" "in.csv" "out.csv" "out.csv"
    (fun _ => some [["name"], ["alice"]]) (fun _ => some [["name"], ["alice"]])
    "," "," "row_id" "row_id" ["alice", "30"] ["alice", "30"]
    rfl rfl rfl rfl rfl rfl

/-- C8: delimiter sensitivity — hashing `["a","b"]` with `,` yields a
different digest than with the tab character, and there are cells and two
delimiters whose joins differ and whose digests differ: the digest is
delimiter-dependent. -/
theorem hash_row_delimiter_sensitivity :
    hash_row ["a", "b"] "," ≠ hash_row ["a", "b"] "\t" ∧
    ∃ values : List String, ∃ d₁ d₂ : String,
      String.intercalate d₁ values ≠ String.intercalate d₂ values ∧
      hash_row values d₁ ≠ hash_row values d₂ :=
  ⟨by decide, ⟨["a", "b"], ",", "\t", by decide, by decide⟩⟩

/-- C9: row-shape tolerance — with no hypothesis whatsoever relating data
record lengths to the header length, the run raises no error and writes each
data record unchanged except for the single appended digest cell. -/
theorem row_hasher_row_shape_tolerance (input_file output_file : String)
    (fs : String → Option (List Record)) (header : Record) (rows : List Record)
    (delimiter column_name : String)
    (hfs : fs input_file = some (header :: rows)) :
    (row_hasher input_file output_file fs delimiter column_name).uncaught = none ∧
    (row_hasher input_file output_file fs delimiter column_name).caught = none ∧
    (row_hasher input_file output_file fs delimiter column_name).written
      = (header ++ [column_name])
          :: rows.map (fun r => r ++ [hash_row r delimiter]) := by
  simp [row_hasher, hfs]

/-- Witness for C9 on a file whose data rows are shorter and longer than the
two-cell header. -/
theorem row_hasher_row_shape_tolerance_witness :
    (row_hasher "in.csv" "out.csv"
        (fun _ => some [["name", "age"], ["x"], ["a", "b", "c"]]) "," "row_id").uncaught
      = none ∧
    (row_hasher "in.csv" "out.csv"
        (fun _ => some [["name", "age"], ["x"], ["a", "b", "c"]]) "," "row_id").caught
      = none ∧
    (row_hasher "in.csv" "out.csv"
        (fun _ => some [["name", "age"], ["x"], ["a", "b", "c"]]) "," "row_id").written
      = (["name", "age"] ++ ["row_id"])
          :: [["x"], ["a", "b", "c"]].map (fun r => r ++ [hash_row r ","]) :=
  row_hasher_row_shape_tolerance "in.csv" "out.csv" _ ["name", "age"]
    [["x"], ["a", "b", "c"]] "," "row_id" rfl

/-- C10: `hash_row` is not injective in cell boundaries — the one-cell
record `["a,b"]` and the two-cell record `["a","b"]` are distinct records
yet join to the same string under delimiter `,` and hash to the identical
digest. -/
theorem hash_row_cell_boundary_collision :
    hash_row ["a,b"] "," = hash_row ["a", "b"] "," ∧
    (["a,b"] : List String) ≠ ["a", "b"] ∧
    ∃ v₁ v₂ : List String, ∃ d : String,
      v₁ ≠ v₂ ∧ hash_row v₁ d = hash_row v₂ d :=
  ⟨rfl, by decide, ⟨["a,b"], ["a", "b"], ",", by decide, rfl⟩⟩

end RowHasher
